import Mathlib

/-!
# DelayUnit host library: shallow embedding and verification

This file embeds the protocol codec, timing quantizer and trigger
state-machine model of the DelayUnit repository and proves the spec's
claims about them.

Three generational variants of the controller exist in the sources:
* `src/delay_control.py` — 10000 ps/cycle coarse stage with a 20 ps
  fine step (commands `SET_DELAY`/`SET_FINE`, 8-byte status);
* `src/python/delay_control.py` — same coarse stage with a 20.12 ps
  fine step (`steps = ps * 50 // 1006`, `actual = steps * 2012 // 100`);
* `src/python/delay_unit/core.py` — 5 ns/cycle coarse-only generation
  with the full command table (ARM/DISARM, counter mode, …).

Byte strings are modelled as `List ℕ` with every element < 256 on real
wire data; `struct.pack`/`struct.unpack` little-endian fields become
`u32le`/`leDecode`.  Python integer floor-division and modulo on
non-negative operands coincide with `Nat` `/` and `%`, which is how the
quantizer is embedded (the spec's claims restrict to non-negative
requested times).
-/

/-- Little-endian encoding of a 32-bit value, as produced by
`struct.pack('<I', n)` (`n < 2^32`). -/
def u32le (n : ℕ) : List ℕ :=
  [n % 256, n / 256 % 256, n / 65536 % 256, n / 16777216 % 256]

/-- Little-endian decoding of a byte string, as computed by
`struct.unpack('<H', ·)` / `struct.unpack('<I', ·)` on its fixed-width
input. -/
def leDecode (bs : List ℕ) : ℕ :=
  bs.foldr (fun b acc => b + 256 * acc) 0

/-- The UART command opcodes of `src/python/delay_unit/core.py`
(class `Command`). -/
inductive Cmd
  | SET_COARSE | GET_COARSE | SET_EDGE | GET_EDGE | GET_STATUS
  | RESET_COUNT | SOFT_TRIGGER
  | SET_OUTPUT_TRIGGER_WIDTH | GET_OUTPUT_TRIGGER_WIDTH
  | SET_TRIGGER_MODE | GET_TRIGGER_MODE
  | SET_SOFT_TRIGGER_WIDTH | GET_SOFT_TRIGGER_WIDTH
  | SET_COUNTER_MODE | GET_COUNTER_MODE
  | SET_EDGE_COUNT_TARGET | GET_EDGE_COUNT_TARGET
  | RESET_EDGE_COUNT | ARM | DISARM
  | SET_ARMED_MODE | GET_ARMED_MODE | GET_ARMED
  deriving DecidableEq

/-- Numeric opcode byte of each command (`core.py` lines 13–37). -/
def Cmd.opcode : Cmd → ℕ
  | .SET_COARSE => 0x01
  | .GET_COARSE => 0x02
  | .SET_EDGE => 0x03
  | .GET_EDGE => 0x04
  | .GET_STATUS => 0x05
  | .RESET_COUNT => 0x06
  | .SOFT_TRIGGER => 0x07
  | .SET_OUTPUT_TRIGGER_WIDTH => 0x08
  | .GET_OUTPUT_TRIGGER_WIDTH => 0x09
  | .SET_TRIGGER_MODE => 0x0A
  | .GET_TRIGGER_MODE => 0x0B
  | .SET_SOFT_TRIGGER_WIDTH => 0x0C
  | .GET_SOFT_TRIGGER_WIDTH => 0x0D
  | .SET_COUNTER_MODE => 0x0E
  | .GET_COUNTER_MODE => 0x0F
  | .SET_EDGE_COUNT_TARGET => 0x10
  | .GET_EDGE_COUNT_TARGET => 0x11
  | .RESET_EDGE_COUNT => 0x12
  | .ARM => 0x13
  | .DISARM => 0x14
  | .SET_ARMED_MODE => 0x15
  | .GET_ARMED_MODE => 0x16
  | .GET_ARMED => 0x17

/-- The SET commands of the active generation's table. -/
def Cmd.isSet : Cmd → Bool
  | .SET_COARSE | .SET_EDGE | .SET_OUTPUT_TRIGGER_WIDTH
  | .SET_TRIGGER_MODE | .SET_SOFT_TRIGGER_WIDTH | .SET_COUNTER_MODE
  | .SET_EDGE_COUNT_TARGET | .SET_ARMED_MODE => true
  | _ => false

/-- The GET commands of the active generation's table. -/
def Cmd.isGet : Cmd → Bool
  | .GET_COARSE | .GET_EDGE | .GET_OUTPUT_TRIGGER_WIDTH
  | .GET_TRIGGER_MODE | .GET_SOFT_TRIGGER_WIDTH | .GET_COUNTER_MODE
  | .GET_EDGE_COUNT_TARGET | .GET_ARMED_MODE | .GET_ARMED
  | .GET_STATUS => true
  | _ => false

/-- The SET/GET pairing of the table: each configurable field's SET
opcode with its read-back GET opcode. -/
def setGetPairs : List (Cmd × Cmd) :=
  [(.SET_COARSE, .GET_COARSE),
   (.SET_EDGE, .GET_EDGE),
   (.SET_OUTPUT_TRIGGER_WIDTH, .GET_OUTPUT_TRIGGER_WIDTH),
   (.SET_TRIGGER_MODE, .GET_TRIGGER_MODE),
   (.SET_SOFT_TRIGGER_WIDTH, .GET_SOFT_TRIGGER_WIDTH),
   (.SET_COUNTER_MODE, .GET_COUNTER_MODE),
   (.SET_EDGE_COUNT_TARGET, .GET_EDGE_COUNT_TARGET),
   (.SET_ARMED_MODE, .GET_ARMED_MODE)]

/-- The stateless action commands (`arm`, `disarm`, `soft_trigger`,
`reset_counter`, `reset_edge_count` in `core.py`). -/
def actionCmds : List Cmd :=
  [.ARM, .DISARM, .SOFT_TRIGGER, .RESET_COUNT, .RESET_EDGE_COUNT]

/-- Every command of the active generation. -/
def allCmds : List Cmd :=
  [.SET_COARSE, .GET_COARSE, .SET_EDGE, .GET_EDGE, .GET_STATUS,
   .RESET_COUNT, .SOFT_TRIGGER,
   .SET_OUTPUT_TRIGGER_WIDTH, .GET_OUTPUT_TRIGGER_WIDTH,
   .SET_TRIGGER_MODE, .GET_TRIGGER_MODE,
   .SET_SOFT_TRIGGER_WIDTH, .GET_SOFT_TRIGGER_WIDTH,
   .SET_COUNTER_MODE, .GET_COUNTER_MODE,
   .SET_EDGE_COUNT_TARGET, .GET_EDGE_COUNT_TARGET,
   .RESET_EDGE_COUNT, .ARM, .DISARM,
   .SET_ARMED_MODE, .GET_ARMED_MODE, .GET_ARMED]

/-- Bytes written after the opcode byte by each operation in `core.py`:
`struct.pack('<I', ·)` for the u32 fields, one raw byte for the enum
fields, nothing for GETs and actions. -/
def commandPayloadWidth : Cmd → ℕ
  | .SET_COARSE => 4
  | .SET_EDGE => 1
  | .SET_OUTPUT_TRIGGER_WIDTH => 4
  | .SET_TRIGGER_MODE => 1
  | .SET_SOFT_TRIGGER_WIDTH => 4
  | .SET_COUNTER_MODE => 1
  | .SET_EDGE_COUNT_TARGET => 4
  | .SET_ARMED_MODE => 1
  | _ => 0

/-- Bytes read back for each GET/status command in `core.py`
(`self.ser.read(n)`): 4 for the u32 fields, 1 for the enum/bool
fields, 6 for the status block. -/
def responseWidth : Cmd → ℕ
  | .GET_COARSE => 4
  | .GET_EDGE => 1
  | .GET_STATUS => 6
  | .GET_OUTPUT_TRIGGER_WIDTH => 4
  | .GET_TRIGGER_MODE => 1
  | .GET_SOFT_TRIGGER_WIDTH => 4
  | .GET_COUNTER_MODE => 1
  | .GET_EDGE_COUNT_TARGET => 4
  | .GET_ARMED_MODE => 1
  | .GET_ARMED => 1
  | _ => 0

/-- Wire frame of an action command: `self.ser.write(bytes([Command.X]))`,
the single opcode byte. -/
def actionFrame (c : Cmd) : List ℕ := [c.opcode]

/-- Trigger edge detection types (`class EdgeType`). -/
inductive EdgeType
  | NONE | RISING | FALLING | BOTH
  deriving DecidableEq

/-- `EdgeType(b)` in Python: `some` on 0–3, `none` models the
`ValueError` raised on any other byte. -/
def EdgeType.ofByte : ℕ → Option EdgeType
  | 0 => some .NONE
  | 1 => some .RISING
  | 2 => some .FALLING
  | 3 => some .BOTH
  | _ => none

/-- Trigger mode types (`class TriggerMode`). -/
inductive TriggerMode
  | EXTERNAL | INTERNAL
  deriving DecidableEq

/-- `TriggerMode(b)` in Python. -/
def TriggerMode.ofByte : ℕ → Option TriggerMode
  | 0 => some .EXTERNAL
  | 1 => some .INTERNAL
  | _ => none

/-- Counter trigger mode types (`class CounterMode`). -/
inductive CounterMode
  | DISABLED | ENABLED
  deriving DecidableEq

/-- `CounterMode(b)` in Python. -/
def CounterMode.ofByte : ℕ → Option CounterMode
  | 0 => some .DISABLED
  | 1 => some .ENABLED
  | _ => none

/-- Armed mode types (`class ArmedMode`). -/
inductive ArmedMode
  | SINGLE | REPEAT
  deriving DecidableEq

/-- `ArmedMode(b)` in Python. -/
def ArmedMode.ofByte : ℕ → Option ArmedMode
  | 0 => some .SINGLE
  | 1 => some .REPEAT
  | _ => none

/-- Result of a Python property getter that returns `Optional[α]` but may
also raise: `ok` carries the returned value (`some v` or the `None`
returned on a short read), `valueError` models an escaping
`ValueError`. -/
inductive PyResult (α : Type)
  | ok (val : Option α)
  | valueError
  deriving DecidableEq

/-- `DelayUnit.edge` getter (`core.py` lines 138–150): read 1 byte; on
exactly one byte construct `EdgeType(data[0])`, otherwise return
`None`. -/
def edgeGet (data : List ℕ) : PyResult EdgeType :=
  match data with
  | [b] =>
    match EdgeType.ofByte b with
    | some e => .ok (some e)
    | none => .valueError
  | _ => .ok none

/-- `DelayUnit.trigger_mode` getter (`core.py` lines 315–327). -/
def triggerModeGet (data : List ℕ) : PyResult TriggerMode :=
  match data with
  | [b] =>
    match TriggerMode.ofByte b with
    | some m => .ok (some m)
    | none => .valueError
  | _ => .ok none

/-- `DelayUnit.counter_mode` getter (`core.py` lines 392–406). -/
def counterModeGet (data : List ℕ) : PyResult CounterMode :=
  match data with
  | [b] =>
    match CounterMode.ofByte b with
    | some m => .ok (some m)
    | none => .valueError
  | _ => .ok none

/-- `DelayUnit.armed_mode` getter (`core.py` lines 489–504). -/
def armedModeGet (data : List ℕ) : PyResult ArmedMode :=
  match data with
  | [b] =>
    match ArmedMode.ofByte b with
    | some m => .ok (some m)
    | none => .valueError
  | _ => .ok none

/-- The clamp in the `DelayUnit.coarse` setter (`core.py` lines
176–189): `if cycles < 1: warn(...); cycles = 1`.  Returns the value
actually used together with whether the warning was emitted. -/
def coarseClamp (cycles : ℤ) : ℤ × Bool :=
  if cycles < 1 then (1, true) else (cycles, false)

/-- Full wire frame produced by the `coarse` setter: opcode byte
followed by `struct.pack('<I', cycles)` of the clamped value; `none`
models the `struct.error` raised when the value does not fit a u32. -/
def encodeSetCoarse (cycles : ℤ) : Option (List ℕ) :=
  let c := (coarseClamp cycles).1
  if 0 ≤ c ∧ c < 4294967296 then
    some (Cmd.SET_COARSE.opcode :: u32le c.toNat)
  else none

/-- `DelayUnit.coarse` getter (`core.py` lines 162–174): read 4 bytes,
decode `<I` if exactly 4 arrived, else return `None`. -/
def coarseGet (data : List ℕ) : Option ℕ :=
  if data.length = 4 then some (leDecode data) else none

/-- `DelayUnit.status` decoder (`core.py` lines 191–213): 6 bytes —
`trigger_count` u16 LE at offset 0, `coarse_cycles` u32 LE at offset 2;
anything else yields `None`.  (The returned dict's `delay_ns` entry is
the derived value `coarse_cycles * 5.0`, not a wire field.) -/
def decodeStatusCore (data : List ℕ) : Option (ℕ × ℕ) :=
  if data.length = 6 then
    some (leDecode (data.take 2), leDecode ((data.drop 2).take 4))
  else none

/-- Status decoder of the fine-delay generations
(`src/delay_control.py` lines 97–118 and `src/python/delay_control.py`
lines 124–145): 8 bytes — `trigger_count` u16, `coarse_cycles` u32,
`fine_ps` u16, all little-endian; else `None`.  (The dict's
`actual_delay_ps` entry is derived from these raw fields by the
quantizer's combine step.) -/
def decodeStatusFine (data : List ℕ) : Option (ℕ × ℕ × ℕ) :=
  if data.length = 8 then
    some (leDecode (data.take 2), leDecode ((data.drop 2).take 4),
          leDecode ((data.drop 6).take 2))
  else none

/-- Modelled from the spec: the status layout §4.1 claims for the
generation without fine delay — trigger_count (u16), coarse_delay
(u32), armed (u8), trigger_mode (u8), armed_mode (u8), counter_mode
(u8), edge_type (u8); its total width in bytes.  Stated from the
spec's words for comparison with the decoders embedded from the
sources. -/
def specStatusWidthNoFine : ℕ := 2 + 4 + 1 + 1 + 1 + 1 + 1

/-- The quantizer's split step (`set_delay` in `src/delay_control.py`
lines 37–59 and `src/python/delay_control.py` lines 63–85):
`coarse_cycles = ps // 10000`, `fine_ps = ps % 10000`, for a
non-negative picosecond request. -/
def setDelaySplit (ps : ℕ) : ℕ × ℕ := (ps / 10000, ps % 10000)

/-- The combine step of `get_delay` in `src/delay_control.py` (lines
61–82, 20 ps fine steps): `steps = fine // 20`;
`coarse * 10000 + steps * 20`. -/
def getDelayCombine20 (coarse fine : ℕ) : ℕ :=
  coarse * 10000 + fine / 20 * 20

/-- The combine step of `get_delay` in `src/python/delay_control.py`
(lines 87–109, 20.12 ps fine steps): `steps = fine * 50 // 1006`;
`coarse * 10000 + steps * 2012 // 100`. -/
def getDelayCombine2012 (coarse fine : ℕ) : ℕ :=
  coarse * 10000 + (fine * 50 / 1006) * 2012 / 100

/-- Round trip of the 20 ps generation: split a request, recombine the
parts. -/
def roundTrip20 (ps : ℕ) : ℕ :=
  getDelayCombine20 (setDelaySplit ps).1 (setDelaySplit ps).2

/-- Round trip of the 20.12 ps generation. -/
def roundTrip2012 (ps : ℕ) : ℕ :=
  getDelayCombine2012 (setDelaySplit ps).1 (setDelaySplit ps).2

/-- `get_delay` of `src/delay_control.py` as a function of the raw
bytes the two reads return: `None` unless the coarse read produced
exactly 4 bytes and the fine read exactly 2. -/
def getDelay20 (coarseData fineData : List ℕ) : Option ℕ :=
  if coarseData.length = 4 then
    if fineData.length = 2 then
      some (getDelayCombine20 (leDecode coarseData) (leDecode fineData))
    else none
  else none

/-- Python `round` (banker's rounding, half to even) on an exact
rational. -/
def pythonRound (q : ℚ) : ℤ :=
  let n := Rat.floor q
  let r := q - n
  if r < 1/2 then n
  else if 1/2 < r then n + 1
  else if n % 2 = 0 then n else n + 1

/-- The `delay_ns` setter conversion of `core.py` (lines 229–239):
`coarse_cycles = int(round(nanoseconds / 5.0))`, modelled with exact
rational arithmetic. -/
def delayNsToCycles (nanoseconds : ℚ) : ℤ :=
  pythonRound (nanoseconds / 5)

/-- Modelled from the spec: the FPGA-side trigger state machine (§4.3)
is not part of the host sources (only its tests are under `src/`); its
state as mirrored by the host. -/
structure TriggerSM where
  armed : Bool
  armed_mode : ArmedMode
  counter_mode : CounterMode
  edge_count_target : ℕ
  edge_counter : ℕ
  trigger_counter : ℕ
  deriving DecidableEq

/-- Modelled from the spec: §4.3's transition on one qualifying edge.
Disarmed: edges are invisible.  Armed with counter DISABLED: fire,
then SINGLE disarms / REPEAT stays armed.  Armed with counter ENABLED:
increment `edge_counter`; below target no fire; at target fire, reset
`edge_counter`, apply the armed-mode rule. -/
def qualEdge (s : TriggerSM) : TriggerSM :=
  if s.armed then
    match s.counter_mode with
    | .DISABLED =>
      { s with trigger_counter := s.trigger_counter + 1,
               armed := s.armed_mode == .REPEAT }
    | .ENABLED =>
      let ec := s.edge_counter + 1
      if ec < s.edge_count_target then { s with edge_counter := ec }
      else if ec = s.edge_count_target then
        { s with trigger_counter := s.trigger_counter + 1,
                 edge_counter := 0,
                 armed := s.armed_mode == .REPEAT }
      else { s with edge_counter := ec }
  else s

/-- Apply `n` qualifying edges in sequence. -/
def applyEdges : ℕ → TriggerSM → TriggerSM
  | 0, s => s
  | n + 1, s => applyEdges n (qualEdge s)

/-- Armed start state of `test_single_mode_with_counter`
(`test_armed_mode.py` lines 356–416): counter ENABLED, target 3,
SINGLE, counters at zero. -/
def c2Start : TriggerSM :=
  { armed := true, armed_mode := .SINGLE, counter_mode := .ENABLED,
    edge_count_target := 3, edge_counter := 0, trigger_counter := 0 }

/-! ## Theorems -/

/-- C1 (counterexample): the round-trip claim fails as stated on the
20.12 ps generation.  10060 ps is an exact multiple of the 20.12 ps
fine step (500 steps: 10060 · 100 = 500 · 2012), yet splitting and
recombining returns 10040 ps, because the 10000 ps cycle period is not
a whole number of 20.12 ps steps. -/
theorem c1_roundtrip_counterexample :
    10060 * 100 = 500 * 2012 ∧ roundTrip2012 10060 = 10040 ∧
    roundTrip2012 10060 ≠ 10060 := by decide

/-- C1 (amended): the round trip `combine (split ps) = ps` is exact in
the 20 ps generation whenever the request is a multiple of 20 ps, and
in the 20.12 ps generation whenever the fine remainder `ps % 10000` is
itself an exact multiple of the 20.12 ps step (a multiple of 503 ps). -/
theorem c1_roundtrip_amended (ps : ℕ) :
    (20 ∣ ps → roundTrip20 ps = ps) ∧
    (503 ∣ ps % 10000 → roundTrip2012 ps = ps) := by
  constructor
  · intro h
    have hf : 20 ∣ ps % 10000 := (Nat.dvd_mod_iff (by norm_num)).mpr h
    simp only [roundTrip20, getDelayCombine20, setDelaySplit]
    rw [Nat.div_mul_cancel hf]
    omega
  · intro h
    obtain ⟨m, hm⟩ := h
    simp only [roundTrip2012, getDelayCombine2012, setDelaySplit]
    rw [hm]
    have h1 : 503 * m * 50 / 1006 = 25 * m := by
      rw [show 503 * m * 50 = 1006 * (25 * m) by ring]
      exact Nat.mul_div_cancel_left _ (by norm_num)
    have h2 : 25 * m * 2012 / 100 = 503 * m := by
      rw [show 25 * m * 2012 = 100 * (503 * m) by ring]
      exact Nat.mul_div_cancel_left _ (by norm_num)
    rw [h1, h2, ← hm]
    omega

/-- C1 (witness): both round trips are exact at 20000 ps. -/
theorem c1_roundtrip_amended_witness :
    roundTrip20 20000 = 20000 ∧ roundTrip2012 20000 = 20000 :=
  ⟨(c1_roundtrip_amended 20000).1 (by decide),
   (c1_roundtrip_amended 20000).2 (by decide)⟩

/-- C2: from the armed state with counter ENABLED, target 3 and SINGLE
mode, 2 qualifying edges leave the trigger counter at 0 and the state
armed; the 3rd edge fires (counter 1) and disarms; 10 further edges
leave the counter at 1. -/
theorem c2_single_mode_with_counter :
    (applyEdges 2 c2Start).trigger_counter = 0 ∧
    (applyEdges 2 c2Start).armed = true ∧
    (applyEdges 3 c2Start).trigger_counter = 1 ∧
    (applyEdges 3 c2Start).armed = false ∧
    (applyEdges 13 c2Start).trigger_counter = 1 := by decide

/-- C3: for every requested coarse delay below 1 cycle the setter
clamps to 1, emits the warning, and the frame on the wire carries the
clamped value 1; no error is raised. -/
theorem c3_coarse_clamp (cycles : ℤ) (h : cycles < 1) :
    coarseClamp cycles = (1, true) ∧
    encodeSetCoarse cycles = some [0x01, 0x01, 0x00, 0x00, 0x00] := by
  have hc : coarseClamp cycles = (1, true) := by simp [coarseClamp, h]
  refine ⟨hc, ?_⟩
  simp only [encodeSetCoarse, hc]
  decide

/-- C3 (witness): a requested coarse delay of 0 cycles is clamped. -/
theorem c3_coarse_clamp_witness :
    coarseClamp 0 = (1, true) ∧
    encodeSetCoarse 0 = some [0x01, 0x01, 0x00, 0x00, 0x00] :=
  c3_coarse_clamp 0 (by decide)

/-- C4: encoding SET_COARSE with payload 1000 produces exactly the
5-byte frame 01 E8 03 00 00 (opcode byte, then u32 little-endian). -/
theorem c4_encode_set_coarse_1000 :
    encodeSetCoarse 1000 = some [0x01, 0xE8, 0x03, 0x00, 0x00] := by decide

/-- C5 (counterexample): the claimed status layout (trigger_count u16,
coarse u32, then armed/trigger_mode/armed_mode/counter_mode/edge_type
as one byte each) is 11 bytes wide, but the coarse-only generation's
decoder expects exactly 6 bytes and rejects an 11-byte response. -/
theorem c5_status_layout_counterexample :
    specStatusWidthNoFine = 11 ∧ responseWidth Cmd.GET_STATUS = 6 ∧
    decodeStatusCore (List.replicate specStatusWidthNoFine 0) = none := by
  decide

/-- C5 (amended): a status response is the flat little-endian
concatenation of trigger_count (u16) and coarse_delay (u32) only —
6 bytes in the coarse-only generation, plus fine (u16) for 8 bytes in
the fine-delay generations; no armed/mode/edge bytes are present, and
any other length is rejected. -/
theorem c5_status_layout_amended (b0 b1 b2 b3 b4 b5 b6 b7 : ℕ) :
    decodeStatusCore [b0, b1, b2, b3, b4, b5] =
      some (leDecode [b0, b1], leDecode [b2, b3, b4, b5]) ∧
    decodeStatusFine [b0, b1, b2, b3, b4, b5, b6, b7] =
      some (leDecode [b0, b1], leDecode [b2, b3, b4, b5],
            leDecode [b6, b7]) ∧
    (∀ d : List ℕ, d.length ≠ 6 → decodeStatusCore d = none) ∧
    (∀ d : List ℕ, d.length ≠ 8 → decodeStatusFine d = none) := by
  refine ⟨rfl, rfl, ?_, ?_⟩
  · intro d hd
    simp [decodeStatusCore, hd]
  · intro d hd
    simp [decodeStatusFine, hd]

/-- C5 (witness): a 6-byte response decodes; a 2-byte one is
rejected. -/
theorem c5_status_layout_amended_witness :
    decodeStatusCore [1, 0, 0, 0, 0, 0] = some (1, 0) ∧
    decodeStatusFine [9, 9] = none := by
  refine ⟨?_, (c5_status_layout_amended 1 0 0 0 0 0 0 0).2.2.2 [9, 9]
    (by decide)⟩
  have h := (c5_status_layout_amended 1 0 0 0 0 0 0 0).1
  simpa [leDecode] using h

/-- C6: every GET/status decoder checks the received length against
the expected fixed width and yields `None` on any short read rather
than fabricating a value (the model is a pure function of the bytes
read once — no retry occurs). -/
theorem c6_short_read :
    (∀ d : List ℕ, d.length < 4 → coarseGet d = none) ∧
    (∀ d : List ℕ, d.length < 6 → decodeStatusCore d = none) ∧
    (∀ d : List ℕ, d.length < 8 → decodeStatusFine d = none) ∧
    (∀ c f : List ℕ, c.length < 4 → getDelay20 c f = none) ∧
    (∀ c f : List ℕ, f.length < 2 → getDelay20 c f = none) := by
  refine ⟨?_, ?_, ?_, ?_, ?_⟩
  · intro d hd
    simp [coarseGet]
    omega
  · intro d hd
    simp [decodeStatusCore]
    omega
  · intro d hd
    simp [decodeStatusFine]
    omega
  · intro c f hc
    simp [getDelay20]
    omega
  · intro c f hf
    by_cases hc : c.length = 4
    · simp [getDelay20, hc]
      omega
    · simp [getDelay20, hc]

/-- C6 (witness): short reads at each decoder. -/
theorem c6_short_read_witness :
    coarseGet [1, 2] = none ∧ decodeStatusCore [] = none ∧
    decodeStatusFine [0] = none ∧ getDelay20 [1] [2, 3] = none ∧
    getDelay20 [1, 2, 3, 4] [5] = none :=
  ⟨c6_short_read.1 [1, 2] (by decide), c6_short_read.2.1 [] (by decide),
   c6_short_read.2.2.1 [0] (by decide),
   c6_short_read.2.2.2.1 [1] [2, 3] (by decide),
   c6_short_read.2.2.2.2 [1, 2, 3, 4] [5] (by decide)⟩

/-- C7: `set_delay` splits a non-negative picosecond request into
`coarse = ps div 10000` and `fine = ps mod 10000`, so
`coarse * 10000 + fine = ps` and `fine < 10000`. -/
theorem c7_split_div_mod (ps : ℕ) :
    setDelaySplit ps = (ps / 10000, ps % 10000) ∧
    (setDelaySplit ps).1 * 10000 + (setDelaySplit ps).2 = ps ∧
    (setDelaySplit ps).2 < 10000 := by
  refine ⟨rfl, ?_, ?_⟩ <;> (simp only [setDelaySplit]; omega)

/-- C8: on the 5 ns coarse-only generation, requesting a 17 ns delay
converts to 3 cycles (round(17/5) = round(3.4) = 3), and the coarse
setter passes 3 through without clamping. -/
theorem c8_delay_ns_17 :
    delayNsToCycles 17 = 3 ∧ coarseClamp (delayNsToCycles 17) = (3, false) := by
  have h : delayNsToCycles 17 = 3 := by
    norm_num [delayNsToCycles, pythonRound, Rat.floor_def']
  exact ⟨h, by rw [h]; decide⟩

/-- C9: in the active generation's table every SET opcode has exactly
one matching GET opcode (the next opcode byte) with equal payload
width, the GET opcodes of the pairing are pairwise distinct, and every
action opcode is framed as the bare opcode byte with no payload. -/
theorem c9_opcode_table :
    (∀ p ∈ setGetPairs, p.1.isSet = true ∧ p.2.isGet = true ∧
        commandPayloadWidth p.1 = responseWidth p.2 ∧
        p.2.opcode = p.1.opcode + 1) ∧
    (∀ c ∈ allCmds, c.isSet = true →
        (setGetPairs.filter (fun p => p.1 == c)).length = 1) ∧
    (setGetPairs.map Prod.snd).Nodup ∧
    (∀ a ∈ actionCmds, actionFrame a = [a.opcode] ∧
        commandPayloadWidth a = 0) := by decide

/-- C9 (witness): SET_COARSE/GET_COARSE widths agree and ARM is a bare
opcode byte. -/
theorem c9_opcode_table_witness :
    commandPayloadWidth Cmd.SET_COARSE = responseWidth Cmd.GET_COARSE ∧
    actionFrame Cmd.ARM = [Cmd.ARM.opcode] :=
  ⟨(c9_opcode_table.1 (Cmd.SET_COARSE, Cmd.GET_COARSE) (by decide)).2.2.1,
   (c9_opcode_table.2.2.2 Cmd.ARM (by decide)).1⟩

/-- C10: the enum-valued getters are not total over one-byte
responses: a single byte outside the enum's range escapes as a
`ValueError` from enum construction rather than returning `None`,
while a read of fewer bytes than expected returns `None`. -/
theorem c10_enum_getters :
    (∀ b : ℕ, 4 ≤ b → edgeGet [b] = .valueError) ∧
    (∀ b : ℕ, 2 ≤ b → triggerModeGet [b] = .valueError) ∧
    (∀ b : ℕ, 2 ≤ b → counterModeGet [b] = .valueError) ∧
    (∀ b : ℕ, 2 ≤ b → armedModeGet [b] = .valueError) ∧
    edgeGet [] = .ok none ∧ triggerModeGet [] = .ok none ∧
    counterModeGet [] = .ok none ∧ armedModeGet [] = .ok none := by
  refine ⟨?_, ?_, ?_, ?_, rfl, rfl, rfl, rfl⟩
  · intro b hb
    obtain ⟨n, rfl⟩ : ∃ n, b = n + 4 := ⟨b - 4, by omega⟩
    rfl
  · intro b hb
    obtain ⟨n, rfl⟩ : ∃ n, b = n + 2 := ⟨b - 2, by omega⟩
    rfl
  · intro b hb
    obtain ⟨n, rfl⟩ : ∃ n, b = n + 2 := ⟨b - 2, by omega⟩
    rfl
  · intro b hb
    obtain ⟨n, rfl⟩ : ∃ n, b = n + 2 := ⟨b - 2, by omega⟩
    rfl

/-- C10 (witness): an edge byte of 4 and mode bytes of 2/255 raise. -/
theorem c10_enum_getters_witness :
    edgeGet [4] = .valueError ∧ triggerModeGet [2] = .valueError ∧
    counterModeGet [2] = .valueError ∧ armedModeGet [255] = .valueError :=
  ⟨c10_enum_getters.1 4 (by decide), c10_enum_getters.2.1 2 (by decide),
   c10_enum_getters.2.2.1 2 (by decide),
   c10_enum_getters.2.2.2.1 255 (by decide)⟩
